import Mathlib

/-
Verification development for the IT-helpdesk-bot repository.

Part 1 embeds, from the sources, the frontend logic the claims refer to:
the document-upload file filter (DocumentUpload.handleFileSelect), the
ticket-list selection (TicketsPage.getTicketsToShow), the chat-page message
merging (ChatPage), and the chat service response builder
(chat_service.placeholder_reply, whose body is given in the repository's
design document together with the frontend response type ChatResponse).

Part 2 models, from the specification, the retrieval-and-decision pipeline
(Knowledge Store, Confidence Router, Conversation Memory, Query Pipeline,
Query Log & Feedback).  The backend implementing that pipeline is not part
of the repository sources, so those components are modelled from the
specification text, as marked on each definition.
-/

set_option linter.unusedVariables false

namespace HelpdeskBot

/-! ## Part 1: embeddings of the repository sources -/

/-- A file as seen by the upload dialog: its name and its size in bytes
(the two attributes `handleFileSelect` reads). -/
structure FileRec where
  name : String
  size : Nat
deriving DecidableEq, Repr

/-- The component state touched by `handleFileSelect`: the `selectedFile`
and `error` React states of `DocumentUpload`. -/
structure UploadState where
  selectedFile : Option FileRec
  error : String
deriving DecidableEq, Repr

/-- `ALLOWED_FILE_TYPES` from `DocumentUpload`. -/
def ALLOWED_FILE_TYPES : List String := ["pdf", "docx", "txt", "md"]

/-- `MAX_FILE_SIZE` from `DocumentUpload` (10MB). -/
def MAX_FILE_SIZE : Nat := 10 * 1024 * 1024

/-- Splitting a character sequence on the dot character, as JavaScript's
`split('.')` does: always at least one (possibly empty) component. -/
def splitOnDot : List Char → List (List Char)
  | [] => [[]]
  | c :: rest =>
    match splitOnDot rest with
    | [] => [[]]
    | g :: gs => if c = '.' then [] :: g :: gs else (c :: g) :: gs

/-- `file.name.split('.').pop()?.toLowerCase()`: the last dot-separated
component of the name, lower-cased.  `split` on a string always yields at
least one component, so `pop` never returns `undefined`; for a dotless
name the whole name is returned. -/
def extensionOf (name : String) : String :=
  String.mk (((splitOnDot name.toList).getLastD []).map Char.toLower)

/-- Whether a file name contains a dot at all, i.e. has an extension in
the ordinary sense (used to state the claim about extension-less names). -/
def hasDot (name : String) : Bool :=
  name.toList.contains '.'

/-- `handleFileSelect` from `DocumentUpload`: clears the error, then
rejects the file when the extracted extension is missing or not allowed,
then when the size is over the limit; otherwise records it as selected.
On rejection the previously selected file is left untouched. -/
def handleFileSelect (file : Option FileRec) (st : UploadState) : UploadState :=
  match file with
  | none => st
  | some f =>
    let st1 : UploadState := { st with error := "" }
    let extension := extensionOf f.name
    if extension = "" ∨ extension ∉ ALLOWED_FILE_TYPES then
      { st1 with error := "File type not allowed. Allowed types: " ++
          String.intercalate ", " ALLOWED_FILE_TYPES }
    else if MAX_FILE_SIZE < f.size then
      { st1 with error := "File size too large. Maximum size is 10MB." }
    else
      { st1 with selectedFile := some f }

/-- A signed-in account as used by `TicketsPage` (fields read there). -/
structure User where
  id : Nat
  email : String
  role : String
deriving DecidableEq, Repr

/-- A ticket as declared in the frontend `Ticket` interface (the fields
the list page reads; nested creator/assignee omitted as unread). -/
structure Ticket where
  id : Nat
  created_by : Nat
  assigned_to : Option Nat
  title : String
  description : String
  status : String
  priority : String
deriving DecidableEq, Repr

/-- The `activeTab` state of `TicketsPage`. -/
inductive Tab where
  | all
  | unassigned
  | assigned
deriving DecidableEq, Repr

/-- `getTicketsToShow` from `TicketsPage`: a signed-in account with role
`user` always sees the tickets it created; any other viewer sees the
collection selected by the active tab. -/
def getTicketsToShow (user : Option User)
    (tickets unassignedTickets assignedTickets : List Ticket)
    (activeTab : Tab) : List Ticket :=
  match user with
  | some u =>
    if u.role = "user" then
      tickets.filter (fun ticket => ticket.created_by == u.id)
    else
      match activeTab with
      | .unassigned => unassignedTickets
      | .assigned => assignedTickets
      | .all => tickets
  | none =>
    match activeTab with
    | .unassigned => unassignedTickets
    | .assigned => assignedTickets
    | .all => tickets

/-- Message roles (frontend chat page and conversation turns). -/
inductive Role where
  | user
  | assistant
deriving DecidableEq, Repr

/-- A chat-page message (the fields of the page's `Message` interface;
citations are the cited filenames). -/
structure ChatMsg where
  id : String
  role : Role
  content : String
  citations : List String
  timestamp : Nat
deriving DecidableEq, Repr

/-- The `messages` computation of `ChatPage`: with a truthy session id and
a non-empty server conversation, display the server messages followed by
the locally pending messages whose content matches no server message;
otherwise display the local messages alone. -/
def combineMessages (sessionId : Option String)
    (serverMessages localMessages : List ChatMsg) : List ChatMsg :=
  if sessionId.getD "" ≠ "" ∧ 0 < serverMessages.length then
    serverMessages ++ localMessages.filter (fun localMsg =>
      ! serverMessages.any (fun serverMsg => serverMsg.content == localMsg.content))
  else
    localMessages

/-- Dictionary-shaped values, mirroring the JSON objects the chat service
returns over the wire. -/
inductive JVal where
  | str : String → JVal
  | arr : List JVal → JVal
  | obj : List (String × JVal) → JVal

/-- The field names of an object value. -/
def JVal.keys : JVal → List String
  | .obj kvs => kvs.map (·.1)
  | _ => []

/-- Field lookup in an object value. -/
def JVal.field : JVal → String → Option JVal
  | .obj kvs, k => (kvs.find? (fun p => p.1 == k)).map (·.2)
  | _, _ => none

/-- `docs_repo.get_recent_filenames(limit)`: the most recent parsed
document filenames (the repository list is kept most-recent-first). -/
def get_recent_filenames (docs : List String) (limit : Nat) : List String :=
  docs.take limit

/-- `chat_service.placeholder_reply` as given in the repository's design
document, matching the frontend `ChatResponse` type: a canned reply plus
citations that carry only document filenames. -/
def placeholder_reply (user_id : Nat) (session_id : String) (text : String)
    (docs : List String) : JVal :=
  let related := get_recent_filenames docs 3
  let base := "🔧 Placeholder response:\n- I received: \"" ++ text ++
    "\"\n- I’ll answer from your uploaded docs later.\n"
  let reply :=
    if related.isEmpty then base
    else base ++ "\nHere are some docs I might use soon:\n" ++
      String.intercalate "\n" (related.map (fun f => "• " ++ f))
  .obj [("reply", .str reply),
        ("citations", .arr (related.map (fun f => .obj [("filename", .str f)])))]

/-! ## Part 2: the retrieval-and-decision pipeline, modelled from the spec -/

/-- Modelled from the spec: the confidence levels of the Confidence Router
(the router's backend implementation is not among the repository sources). -/
inductive Level where
  | high
  | medium
  | low
deriving DecidableEq, Repr

/-- Modelled from the spec: the result of `classify`. -/
structure RouteResult where
  level : Level
  meanDistance : ℚ
  attemptAnswer : Bool
deriving DecidableEq, Repr

/-- Modelled from the spec: threshold `T_high = 0.20`. -/
def T_high : ℚ := 20 / 100

/-- Modelled from the spec: threshold `T_low = 0.35`. -/
def T_low : ℚ := 35 / 100

/-- The arithmetic mean of a list of rationals. -/
def listMean (l : List ℚ) : ℚ := l.sum / l.length

/-- Modelled from the spec: the Confidence Router's `classify` (§4.2),
whose backend implementation is not among the repository sources.  Empty
input is low with mean distance 1; `high` needs `top ≤ T_high` and at
least 3 distances; `low` when `top ≥ T_low`; otherwise `medium`. -/
def classify (distances : List ℚ) : RouteResult :=
  match distances with
  | [] => { level := .low, meanDistance := 1, attemptAnswer := false }
  | d :: ds =>
    if ds.foldl min d ≤ T_high ∧ 3 ≤ (d :: ds).length then
      { level := .high, meanDistance := listMean (d :: ds), attemptAnswer := true }
    else if T_low ≤ ds.foldl min d then
      { level := .low, meanDistance := listMean (d :: ds), attemptAnswer := false }
    else
      { level := .medium, meanDistance := listMean (d :: ds), attemptAnswer := true }

/-- Modelled from the spec: a knowledge entry with its derived embedding
(Knowledge Store, §4.1; not among the repository sources). -/
structure KnowledgeEntry where
  id : String
  title : String
  body : String
  tags : List String
  embedding : List ℚ
deriving DecidableEq, Repr

/-- Modelled from the spec: the `StoreError` raised on a duplicate id. -/
inductive StoreError where
  | duplicateId (id : String)
deriving DecidableEq, Repr

/-- Modelled from the spec: the Knowledge Store state: one record per live
entry id, plus a counter for generated ids. -/
structure Store where
  entries : List KnowledgeEntry
  nextId : Nat
deriving DecidableEq, Repr

/-- Modelled from the spec: `addEntry` (§4.1; not among the repository
sources).  Generates an id when absent, computes the embedding from
`title + "\n" + body` with the pluggable embedding function, and fails
with `StoreError` when the id already exists. -/
def addEntry (embed : String → List ℚ) (s : Store) (givenId : Option String)
    (title body : String) (tags : List String) : Except StoreError (Store × String) :=
  let id := givenId.getD ("kb-" ++ toString s.nextId)
  if s.entries.any (fun e => e.id == id) then
    .error (.duplicateId id)
  else
    .ok ({ entries := s.entries ++
            [{ id := id
               title := title
               body := body
               tags := tags
               embedding := embed (title ++ "\n" ++ body) }]
           nextId := s.nextId + 1 }, id)

/-- Modelled from the spec: one ranked search result (§4.1), carrying the
metadata snapshot (title and body) used for context building. -/
structure SearchResult where
  id : String
  title : String
  body : String
  similarityScore : ℚ
  distance : ℚ
deriving DecidableEq, Repr

/-- Modelled from the spec: `search` (§4.1; not among the repository
sources).  Embeds the query, scores every entry with `similarity =
1 - distance`, orders by ascending distance and keeps `k` results. -/
def search (embed : String → List ℚ) (dist : List ℚ → List ℚ → ℚ)
    (s : Store) (queryText : String) (k : Nat) : List SearchResult :=
  let qv := embed queryText
  let scored := s.entries.map (fun e =>
    { id := e.id
      title := e.title
      body := e.body
      similarityScore := 1 - dist qv e.embedding
      distance := dist qv e.embedding })
  (scored.mergeSort (fun a b => a.distance ≤ b.distance)).take k

/-- Modelled from the spec: one conversation turn (§3). -/
structure Turn where
  role : Role
  content : String
  timestamp : Nat
deriving DecidableEq, Repr

/-- Modelled from the spec: the Conversation Memory state, one durable
record per session id. -/
abbrev Memory := List (String × List Turn)

/-- The most recent `n` elements of a list, in their original order. -/
def lastN {α : Type} (n : Nat) (l : List α) : List α :=
  l.drop (l.length - n)

/-- Modelled from the spec: `appendTurn` (§4.3; not among the repository
sources).  Creates the session on first use, appends, and truncates to the
most recent `maxTurns` turns at append time. -/
def appendTurn (maxTurns : Nat) (mem : Memory) (sessionId : String)
    (role : Role) (content : String) (now : Nat) : Memory :=
  if mem.any (fun p => p.1 == sessionId) then
    mem.map (fun p =>
      if p.1 == sessionId then (p.1, lastN maxTurns (p.2 ++ [⟨role, content, now⟩]))
      else p)
  else
    mem ++ [(sessionId, lastN maxTurns [⟨role, content, now⟩])]

/-- The stored turn sequence of a session (empty for an unknown session). -/
def getSession (mem : Memory) (sessionId : String) : List Turn :=
  ((mem.find? (fun p => p.1 == sessionId)).map (·.2)).getD []

/-- Modelled from the spec: `getContext` (§4.3): role and content only,
timestamps stripped; empty for an unknown session. -/
def getContext (mem : Memory) (sessionId : String) : List (Role × String) :=
  (getSession mem sessionId).map (fun t => (t.role, t.content))

/-- Appending a whole list of turns to one session, oldest first. -/
def appendTurns (maxTurns : Nat) (mem : Memory) (sessionId : String)
    (ts : List Turn) : Memory :=
  ts.foldl (fun m t => appendTurn maxTurns m sessionId t.role t.content t.timestamp) mem

/-- Modelled from the spec: feedback status values of a query-log entry. -/
inductive FeedbackStatus where
  | pending
  | pending_review
  | reviewed
deriving DecidableEq, Repr

/-- Modelled from the spec: feedback categories (§3). -/
inductive FeedbackCategory where
  | correct
  | incorrect
  | partially_correct
  | unclear
deriving DecidableEq, Repr

/-- Modelled from the spec: one immutable query-log entry (§3), mutated
only by the feedback-status transition. -/
structure QueryLogEntry where
  id : Nat
  timestamp : Nat
  question : String
  answer : String
  retrievedIds : List String
  confidenceLevel : Level
  meanDistance : ℚ
  latency : Nat
  feedbackStatus : FeedbackStatus
deriving DecidableEq, Repr

/-- Modelled from the spec: one feedback record (§3). -/
structure FeedbackRecord where
  id : Nat
  logId : Nat
  category : FeedbackCategory
  comment : Option String
  timestamp : Nat
  reviewStatus : FeedbackStatus
deriving DecidableEq, Repr

/-- Modelled from the spec: the `NotFoundError` for a missing log id. -/
inductive NotFoundError where
  | missingLogId (logId : Nat)
deriving DecidableEq, Repr

/-- Modelled from the spec: the composed state of the stateful
collaborators the pipeline orchestrates (§4.4: the pipeline itself is
stateless). -/
structure SystemState where
  store : Store
  memory : Memory
  qlog : List QueryLogEntry
  nextLogId : Nat
  feedbacks : List FeedbackRecord
  reviewQueue : List FeedbackRecord
  nextFeedbackId : Nat
deriving DecidableEq, Repr

/-- Modelled from the spec: `logQuery` (§4.5; not among the repository
sources): append-only write returning the fresh id. -/
def logQuery (s : SystemState) (question answer : String)
    (retrievedIds : List String) (level : Level) (meanDistance : ℚ)
    (latency now : Nat) : SystemState × Nat :=
  let entry : QueryLogEntry :=
    { id := s.nextLogId
      timestamp := now
      question := question
      answer := answer
      retrievedIds := retrievedIds
      confidenceLevel := level
      meanDistance := meanDistance
      latency := latency
      feedbackStatus := .pending }
  ({ s with qlog := s.qlog ++ [entry], nextLogId := s.nextLogId + 1 }, s.nextLogId)

/-- Whether a feedback category is one of the negative ones that enqueue a
review (§4.5). -/
def negativeCategory (c : FeedbackCategory) : Bool :=
  match c with
  | .incorrect => true
  | .partially_correct => true
  | .unclear => true
  | .correct => false

/-- Modelled from the spec: `recordFeedback` (§4.5; not among the
repository sources).  Validates the log id, appends a feedback record,
enqueues negative feedback for review and marks the referenced log entry
`pending_review` (a `correct` category marks it `reviewed` directly). -/
def recordFeedback (s : SystemState) (logId : Nat) (category : FeedbackCategory)
    (comment : Option String) (now : Nat) : Except NotFoundError (SystemState × Nat) :=
  if s.qlog.any (fun e => e.id == logId) then
    let neg := negativeCategory category
    let fr : FeedbackRecord :=
      { id := s.nextFeedbackId
        logId := logId
        category := category
        comment := comment
        timestamp := now
        reviewStatus := if neg then .pending_review else .reviewed }
    let qlog2 := s.qlog.map (fun e =>
      if e.id == logId then
        { e with feedbackStatus := if neg then .pending_review else .reviewed }
      else e)
    .ok ({ s with
           qlog := qlog2
           feedbacks := s.feedbacks ++ [fr]
           reviewQueue := if neg then s.reviewQueue ++ [fr] else s.reviewQueue
           nextFeedbackId := s.nextFeedbackId + 1 }, s.nextFeedbackId)
  else
    .error (.missingLogId logId)

/-- Modelled from the spec: the review queue listing (§4.5/§6). -/
def listPendingFeedback (s : SystemState) : List FeedbackRecord :=
  s.reviewQueue

/-- Modelled from the spec: the pipeline's external collaborators and
configuration: the pluggable embedding function, the distance metric, the
external answerer (which may fail), and the memory retention window. -/
structure Env where
  embed : String → List ℚ
  dist : List ℚ → List ℚ → ℚ
  gen : String → String → List (Role × String) → String → Option String
  maxTurns : Nat

/-- Modelled from the spec: the system instruction per confidence level
(§4.4 step 5). -/
def systemInstruction (level : Level) : String :=
  match level with
  | .high => "Answer directly and confidently from the context."
  | .medium => "Answer but flag that it may need verification."
  | .low => "Do not fabricate; advise contacting support; surface the closest matches as possibly related."

/-- Modelled from the spec: the textual context block built from the top
results (title plus an excerpt of the body, ranked; §4.4 step 3). -/
def buildContext (results : List SearchResult) : String :=
  String.intercalate "\n\n" (results.map (fun r => r.title ++ "\n" ++ r.body.take 200))

/-- Modelled from the spec: the canned deflection referencing the closest
entries, if any, as possibly-related suggestions (§4.4 step 6). -/
def deflectionAnswer (results : List SearchResult) : String :=
  let base := "I could not find a confident answer in the knowledge base. Please contact IT support."
  if results.isEmpty then base
  else base ++ " Possibly related: " ++ String.intercalate ", " (results.map (·.title))

/-- Modelled from the spec: a citation surfaced with an answer (§6). -/
structure Citation where
  id : String
  title : String
deriving DecidableEq, Repr

/-- Modelled from the spec: the record `answerQuery` returns (§4.4 step 9),
extended with the step-6 observable of whether the external answerer was
invoked at all. -/
structure AnswerResult where
  answer : String
  citations : List Citation
  confidenceLevel : Level
  logId : Nat
  calledAnswerer : Bool
deriving DecidableEq, Repr

/-- Modelled from the spec: the Query Pipeline's `answerQuery` (§4.4; not
among the repository sources), composing search, routing, context
building, the optional external call with deflection fallback, memory
persistence and query logging. -/
def answerQuery (env : Env) (s : SystemState) (question : String)
    (sessionId : Option String) (now latency : Nat) : AnswerResult × SystemState :=
  let results := search env.embed env.dist s.store question 5
  let distances := results.map (fun r => 1 - r.similarityScore)
  let routing := classify distances
  let contextBlock := buildContext results
  let history := match sessionId with
    | some sid => getContext s.memory sid
    | none => []
  let instr := systemInstruction routing.level
  let generated : String × Bool :=
    if routing.attemptAnswer then
      match env.gen instr contextBlock history question with
      | some a => (a, true)
      | none => (deflectionAnswer results, true)
    else
      (deflectionAnswer results, false)
  let memory2 := match sessionId with
    | some sid =>
      appendTurn env.maxTurns
        (appendTurn env.maxTurns s.memory sid .user question now)
        sid .assistant generated.1 now
    | none => s.memory
  let logged := logQuery { s with memory := memory2 } question generated.1
    (results.map (·.id)) routing.level routing.meanDistance latency now
  ({ answer := generated.1
     citations := results.map (fun r => { id := r.id, title := r.title })
     confidenceLevel := routing.level
     logId := logged.2
     calledAnswerer := generated.2 }, logged.1)

/-- Modelled from the spec: `classify` as invoked against the program
state: being a pure function, it reads and writes none of it (§4.2). -/
def classifyIn (s : SystemState) (distances : List ℚ) : RouteResult × SystemState :=
  (classify distances, s)

/-- A sample ticket collection for concrete instantiations. -/
def demoTickets : List Ticket :=
  [{ id := 10, created_by := 1, assigned_to := none, title := "WiFi down",
     description := "no signal", status := "open", priority := "high" },
   { id := 11, created_by := 2, assigned_to := some 3, title := "Printer jam",
     description := "tray 2", status := "open", priority := "low" },
   { id := 12, created_by := 1, assigned_to := none, title := "VPN error",
     description := "code 789", status := "open", priority := "medium" }]

/-- A sample turn sequence (7 turns) for concrete instantiations. -/
def demoTurns : List Turn :=
  [⟨.user, "a", 0⟩, ⟨.assistant, "b", 1⟩, ⟨.user, "c", 2⟩, ⟨.assistant, "d", 3⟩,
   ⟨.user, "e", 4⟩, ⟨.assistant, "f", 5⟩, ⟨.user, "g", 6⟩]

/-- A sample server-side conversation for concrete instantiations. -/
def demoServerMsgs : List ChatMsg :=
  [{ id := "1", role := .user, content := "hi", citations := [], timestamp := 0 }]

/-- Sample locally pending messages for concrete instantiations: one
duplicating the server content, one new. -/
def demoLocalMsgs : List ChatMsg :=
  [{ id := "u1", role := .user, content := "hi", citations := [], timestamp := 5 },
   { id := "u2", role := .user, content := "new", citations := [], timestamp := 6 }]

/-- A sample pipeline environment for concrete instantiations. -/
def demoEnv : Env :=
  { embed := fun _ => []
    dist := fun _ _ => 0
    gen := fun _ _ _ _ => none
    maxTurns := 10 }

/-- The initial, empty system state. -/
def emptyState : SystemState :=
  { store := { entries := [], nextId := 0 }
    memory := []
    qlog := []
    nextLogId := 0
    feedbacks := []
    reviewQueue := []
    nextFeedbackId := 0 }

/-- A sample state whose query log holds one entry with id 1, for
concrete feedback instantiations. -/
def demoLoggedState : SystemState :=
  { emptyState with
    qlog := [{ id := 1
               timestamp := 0
               question := "q"
               answer := "a"
               retrievedIds := []
               confidenceLevel := .medium
               meanDistance := 3/10
               latency := 4
               feedbackStatus := .pending }]
    nextLogId := 2 }

/-! ## Theorems -/

/-- The type-rejection message of `handleFileSelect` is nonempty. -/
theorem typeMsg_ne_empty :
    ("File type not allowed. Allowed types: " ++
      String.intercalate ", " ALLOWED_FILE_TYPES) ≠ "" := by
  decide

/-- The size-rejection message of `handleFileSelect` is nonempty. -/
theorem sizeMsg_ne_empty : ("File size too large. Maximum size is 10MB." : String) ≠ "" := by
  decide

/-- C2: for every list of distances whose minimum is at most 0.20 and
whose length is at least 3, the Confidence Router's `classify` returns
level `high` with `attemptAnswer = true`. -/
theorem C2_classify_high (d : ℚ) (ds : List ℚ)
    (htop : ds.foldl min d ≤ T_high) (hlen : 3 ≤ (d :: ds).length) :
    (classify (d :: ds)).level = .high ∧ (classify (d :: ds)).attemptAnswer = true := by
  simp only [classify, if_pos (And.intro htop hlen)]
  simp

/-- C2 witness: the concrete distance list `[0.1, 0.3, 0.4]` has minimum
`0.1 ≤ 0.20` and length 3, and classifies as `high` with an attempted
answer. -/
theorem C2_classify_high_witness :
    ([(3 : ℚ)/10, 2/5].foldl min (1/10) ≤ T_high) ∧
    (classify [(1 : ℚ)/10, 3/10, 2/5]).level = .high ∧
    (classify [(1 : ℚ)/10, 3/10, 2/5]).attemptAnswer = true :=
  ⟨by norm_num [T_high],
   C2_classify_high (1/10) [3/10, 2/5] (by norm_num [T_high]) (by norm_num)⟩

/-- C7: the Confidence Router's `classify` is deterministic and
side-effect free: invoked on the same distance list in any two program
states it returns the same result, and it leaves the state it was invoked
in unchanged. -/
theorem C7_classify_pure (s1 s2 : SystemState) (distances : List ℚ) :
    (classifyIn s1 distances).1 = (classifyIn s2 distances).1 ∧
    (classifyIn s1 distances).2 = s1 :=
  ⟨rfl, rfl⟩

/-- C8 counterexample: a file whose name is just `pdf` — no dot, so no
extension in the ordinary sense — is NOT rejected by `handleFileSelect`:
it is set as the selected file, refuting the claim that a file with no
extension is never set as the selected file. -/
theorem C8_file_select_counterexample :
    ¬ (hasDot "pdf" = false →
        (handleFileSelect (some { name := "pdf", size := 1 })
            { selectedFile := none, error := "" }).selectedFile ≠
          some { name := "pdf", size := 1 }) := by
  decide

/-- C8 amended: the extension `handleFileSelect` checks is the lower-cased
last dot-separated component of the name (the whole name when there is no
dot).  When that component is not an allowed type, or the size exceeds
10MB, the file is rejected with an error message and the selected file is
unchanged; otherwise the file becomes the selected file and the error is
cleared. -/
theorem C8_file_select_amended (f : FileRec) (st : UploadState) :
    (extensionOf f.name ∉ ALLOWED_FILE_TYPES ∨ MAX_FILE_SIZE < f.size →
      (handleFileSelect (some f) st).selectedFile = st.selectedFile ∧
      (handleFileSelect (some f) st).error ≠ "") ∧
    (extensionOf f.name ∈ ALLOWED_FILE_TYPES ∧ f.size ≤ MAX_FILE_SIZE →
      (handleFileSelect (some f) st).selectedFile = some f ∧
      (handleFileSelect (some f) st).error = "") := by
  have hne : extensionOf f.name ∈ ALLOWED_FILE_TYPES → extensionOf f.name ≠ "" := by
    intro hmem he
    rw [he] at hmem
    simp [ALLOWED_FILE_TYPES] at hmem
  constructor
  · rintro (hbad | hbig)
    · have hcond : extensionOf f.name = "" ∨ extensionOf f.name ∉ ALLOWED_FILE_TYPES :=
        Or.inr hbad
      have hres : handleFileSelect (some f) st =
          { st with error := "File type not allowed. Allowed types: " ++
              String.intercalate ", " ALLOWED_FILE_TYPES } := by
        simp [handleFileSelect, if_pos hcond]
      rw [hres]
      exact ⟨rfl, typeMsg_ne_empty⟩
    · by_cases hmem : extensionOf f.name ∈ ALLOWED_FILE_TYPES
      · have hcond : ¬ (extensionOf f.name = "" ∨ extensionOf f.name ∉ ALLOWED_FILE_TYPES) := by
          push_neg
          exact ⟨hne hmem, hmem⟩
        have hres : handleFileSelect (some f) st =
            { st with error := "File size too large. Maximum size is 10MB." } := by
          simp [handleFileSelect, if_neg hcond, if_pos hbig]
        rw [hres]
        exact ⟨rfl, sizeMsg_ne_empty⟩
      · have hres : handleFileSelect (some f) st =
            { st with error := "File type not allowed. Allowed types: " ++
                String.intercalate ", " ALLOWED_FILE_TYPES } := by
          simp [handleFileSelect, if_pos (Or.inr hmem)]
        rw [hres]
        exact ⟨rfl, typeMsg_ne_empty⟩
  · rintro ⟨hmem, hsize⟩
    have hcond : ¬ (extensionOf f.name = "" ∨ extensionOf f.name ∉ ALLOWED_FILE_TYPES) := by
      push_neg
      exact ⟨hne hmem, hmem⟩
    have hres : handleFileSelect (some f) st = { selectedFile := some f, error := "" } := by
      simp [handleFileSelect, if_neg hcond, if_neg (by omega : ¬ MAX_FILE_SIZE < f.size)]
    rw [hres]
    exact ⟨rfl, rfl⟩

/-- C8 witness: a 5-byte file `guide.PDF` is accepted (extension check is
case-insensitive), clearing a previous error; a 1-byte file `virus.exe`
is rejected and leaves the previous selection untouched. -/
theorem C8_file_select_amended_witness :
    (extensionOf "guide.PDF" ∈ ALLOWED_FILE_TYPES ∧ 5 ≤ MAX_FILE_SIZE) ∧
    (handleFileSelect (some { name := "guide.PDF", size := 5 })
        { selectedFile := none, error := "old error" }).selectedFile =
      some { name := "guide.PDF", size := 5 } ∧
    (handleFileSelect (some { name := "guide.PDF", size := 5 })
        { selectedFile := none, error := "old error" }).error = "" ∧
    (extensionOf "virus.exe" ∉ ALLOWED_FILE_TYPES) ∧
    (handleFileSelect (some { name := "virus.exe", size := 1 })
        { selectedFile := some { name := "guide.PDF", size := 5 }, error := "" }).selectedFile =
      some { name := "guide.PDF", size := 5 } ∧
    (handleFileSelect (some { name := "virus.exe", size := 1 })
        { selectedFile := some { name := "guide.PDF", size := 5 }, error := "" }).error ≠ "" :=
  ⟨⟨by decide, by decide⟩,
   (C8_file_select_amended { name := "guide.PDF", size := 5 }
      { selectedFile := none, error := "old error" }).2 ⟨by decide, by decide⟩ |>.1,
   (C8_file_select_amended { name := "guide.PDF", size := 5 }
      { selectedFile := none, error := "old error" }).2 ⟨by decide, by decide⟩ |>.2,
   by decide,
   (C8_file_select_amended { name := "virus.exe", size := 1 }
      { selectedFile := some { name := "guide.PDF", size := 5 }, error := "" }).1
      (Or.inl (by decide)) |>.1,
   (C8_file_select_amended { name := "virus.exe", size := 1 }
      { selectedFile := some { name := "guide.PDF", size := 5 }, error := "" }).1
      (Or.inl (by decide)) |>.2⟩

/-- C9: for a signed-in account with role `user`, `getTicketsToShow` is
exactly the tickets created by that account, independent of the selected
tab; and any two ticket collections agreeing on that account's tickets
produce the identical displayed list. -/
theorem C9_user_role_tickets (u : User)
    (tickets ua aa tickets2 ua2 aa2 : List Ticket) (tab tab2 : Tab)
    (hrole : u.role = "user") :
    getTicketsToShow (some u) tickets ua aa tab =
      tickets.filter (fun t => t.created_by == u.id) ∧
    (tickets.filter (fun t => t.created_by == u.id) =
        tickets2.filter (fun t => t.created_by == u.id) →
      getTicketsToShow (some u) tickets ua aa tab =
        getTicketsToShow (some u) tickets2 ua2 aa2 tab2) := by
  constructor
  · simp [getTicketsToShow, hrole]
  · intro h
    simp [getTicketsToShow, hrole, h]

/-- C9 witness: a `user`-role account with id 1 sees exactly its own
tickets from the sample collection, whichever tab is active. -/
theorem C9_user_role_tickets_witness :
    ({ id := 1, email := "user@ex.com", role := "user" } : User).role = "user" ∧
    getTicketsToShow (some { id := 1, email := "user@ex.com", role := "user" })
        demoTickets [] [] .assigned =
      demoTickets.filter (fun t => t.created_by == 1) :=
  ⟨rfl,
   (C9_user_role_tickets { id := 1, email := "user@ex.com", role := "user" }
      demoTickets [] [] demoTickets [] [] .assigned .assigned rfl).1⟩

/-- C10: with a session id present and a non-empty server conversation,
the displayed chat messages are the server messages followed by exactly
the locally pending messages whose content differs from every server
message; a pending message matching some server message's content is
dropped from the appended tail. -/
theorem C10_chat_merge (sid : String) (serverMsgs localMsgs : List ChatMsg)
    (hsid : sid ≠ "") (hserver : serverMsgs ≠ []) :
    combineMessages (some sid) serverMsgs localMsgs =
      serverMsgs ++ localMsgs.filter (fun lm =>
        decide (∀ sm ∈ serverMsgs, sm.content ≠ lm.content)) ∧
    ∀ lm ∈ localMsgs, (∃ sm ∈ serverMsgs, sm.content = lm.content) →
      lm ∉ (combineMessages (some sid) serverMsgs localMsgs).drop serverMsgs.length := by
  have hcond : (some sid).getD "" ≠ "" ∧ 0 < serverMsgs.length := by
    refine ⟨by simpa using hsid, ?_⟩
    cases serverMsgs with
    | nil => exact absurd rfl hserver
    | cons a l => simp
  have h1 : combineMessages (some sid) serverMsgs localMsgs =
      serverMsgs ++ localMsgs.filter (fun localMsg =>
        ! serverMsgs.any (fun serverMsg => serverMsg.content == localMsg.content)) := by
    unfold combineMessages
    rw [if_pos hcond]
  constructor
  · rw [h1]
    congr 1
    apply List.filter_congr
    intro a _
    rw [Bool.eq_iff_iff]
    simp [List.any_eq_true]
  · rintro lm hlm ⟨sm, hsm, heq⟩
    rw [h1, List.drop_left]
    intro hmem
    have hpred := (List.mem_filter.1 hmem).2
    simp [List.any_eq_true] at hpred
    exact (hpred sm hsm) heq

/-- C10 witness: with session `s1`, a server conversation of one message
with content `hi`, and pending messages `hi` and `new`, the display keeps
the server message and appends only `new`; the duplicated pending `hi` is
dropped from the tail. -/
theorem C10_chat_merge_witness :
    combineMessages (some "s1") demoServerMsgs demoLocalMsgs =
      demoServerMsgs ++ demoLocalMsgs.filter (fun lm =>
        decide (∀ sm ∈ demoServerMsgs, sm.content ≠ lm.content)) :=
  (C10_chat_merge "s1" demoServerMsgs demoLocalMsgs (by decide) (by simp [demoServerMsgs])).1

/-- C1 counterexample: the chat answer operation of the repository
(`placeholder_reply`, returned to the frontend as `ChatResponse`) produces,
at a concrete question, a record with only the two components `reply` and
`citations`: it cannot contain four components, and carries no
`confidenceLevel` and no `logId` component; with a document present, its
citations carry a `filename`, not an id and title. -/
theorem C1_response_shape_counterexample :
    ¬ (4 ≤ ((placeholder_reply 1 "s" "how do I reset my password" []).keys).length) ∧
    "confidenceLevel" ∉ (placeholder_reply 1 "s" "how do I reset my password" []).keys ∧
    "logId" ∉ (placeholder_reply 1 "s" "how do I reset my password" []).keys ∧
    (placeholder_reply 1 "s" "q" ["guide.pdf"]).field "citations" =
      some (.arr [.obj [("filename", .str "guide.pdf")]]) :=
  ⟨by decide, by decide, by decide, rfl⟩

/-- C1 amended: for every question and session, the chat answer operation
returns a record with exactly the two components `reply` (a string) and
`citations` (one object per recent document, carrying only its filename);
there is no confidence-level and no log-id component. -/
theorem C1_response_shape_amended (user_id : Nat) (session_id text : String)
    (docs : List String) :
    (placeholder_reply user_id session_id text docs).keys = ["reply", "citations"] ∧
    (∃ r, (placeholder_reply user_id session_id text docs).field "reply" =
      some (.str r)) ∧
    (placeholder_reply user_id session_id text docs).field "citations" =
      some (.arr ((docs.take 3).map (fun f => .obj [("filename", .str f)]))) := by
  refine ⟨rfl, ⟨_, rfl⟩, rfl⟩

/-- C5: adding an entry under an id that already exists fails with a
`StoreError`, and afterwards the store holds exactly one record for that
id: from a store without id `x`, the first `addEntry` under `x` succeeds,
the second fails, and the resulting store has exactly one record for `x`. -/
theorem C5_duplicate_add (embed : String → List ℚ) (s : Store) (x title body : String)
    (tags : List String) (title2 body2 : String) (tags2 : List String)
    (hfresh : ∀ e ∈ s.entries, e.id ≠ x) :
    ∃ s1, addEntry embed s (some x) title body tags = .ok (s1, x) ∧
      addEntry embed s1 (some x) title2 body2 tags2 = .error (.duplicateId x) ∧
      (s1.entries.filter (fun e => e.id == x)).length = 1 := by
  have hany : s.entries.any (fun e => e.id == x) = false := by
    rw [List.any_eq_false]
    intro e he
    simpa using hfresh e he
  refine ⟨{ entries := s.entries ++
             [{ id := x
                title := title
                body := body
                tags := tags
                embedding := embed (title ++ "\n" ++ body) }]
            nextId := s.nextId + 1 }, ?_, ?_, ?_⟩
  · simp [addEntry, hany]
  · simp [addEntry]
  · rw [List.filter_append]
    have h0 : s.entries.filter (fun e => e.id == x) = [] := by
      rw [List.filter_eq_nil_iff]
      intro e he
      simpa using hfresh e he
    rw [h0]
    simp

/-- C5 witness: on the empty store, adding id `x` succeeds, re-adding `x`
fails with the duplicate-id `StoreError`, and exactly one record for `x`
remains. -/
theorem C5_duplicate_add_witness :
    (∀ e ∈ ({ entries := [], nextId := 0 } : Store).entries, e.id ≠ "x") ∧
    ∃ s1, addEntry (fun _ => []) { entries := [], nextId := 0 } (some "x") "t" "b" [] =
        .ok (s1, "x") ∧
      addEntry (fun _ => []) s1 (some "x") "t2" "b2" [] = .error (.duplicateId "x") ∧
      (s1.entries.filter (fun e => e.id == "x")).length = 1 :=
  ⟨by simp,
   C5_duplicate_add (fun _ => []) { entries := [], nextId := 0 } "x" "t" "b" [] "t2" "b2" []
     (by simp)⟩

/-- C6: `recordFeedback` on an absent log id fails with `NotFoundError`;
on an existing log id with category `incorrect` it succeeds, the
referenced log entry's feedback status becomes `pending_review`, and the
new feedback record appears in `listPendingFeedback`. -/
theorem C6_feedback_linkage (s : SystemState) (logId : Nat) (comment : Option String)
    (now : Nat) :
    ((∀ e ∈ s.qlog, e.id ≠ logId) → ∀ category,
      recordFeedback s logId category comment now = .error (.missingLogId logId)) ∧
    ((∃ e ∈ s.qlog, e.id = logId) →
      ∃ s2, recordFeedback s logId .incorrect comment now = .ok (s2, s.nextFeedbackId) ∧
        (∃ e ∈ s2.qlog, e.id = logId ∧ e.feedbackStatus = .pending_review) ∧
        (∃ fr ∈ listPendingFeedback s2, fr.id = s.nextFeedbackId ∧ fr.logId = logId)) := by
  constructor
  · intro habs category
    have hany : s.qlog.any (fun e => e.id == logId) = false := by
      rw [List.any_eq_false]
      intro e he
      simpa using habs e he
    simp [recordFeedback, hany]
  · rintro ⟨e, he, heid⟩
    have hany : s.qlog.any (fun e => e.id == logId) = true := by
      rw [List.any_eq_true]
      exact ⟨e, he, by simp [heid]⟩
    refine ⟨{ s with
        qlog := s.qlog.map (fun e =>
          if e.id == logId then { e with feedbackStatus := .pending_review } else e)
        feedbacks := s.feedbacks ++
          [{ id := s.nextFeedbackId
             logId := logId
             category := .incorrect
             comment := comment
             timestamp := now
             reviewStatus := .pending_review }]
        reviewQueue := s.reviewQueue ++
          [{ id := s.nextFeedbackId
             logId := logId
             category := .incorrect
             comment := comment
             timestamp := now
             reviewStatus := .pending_review }]
        nextFeedbackId := s.nextFeedbackId + 1 }, ?_, ?_, ?_⟩
    · simp [recordFeedback, hany, negativeCategory]
    · refine ⟨_, List.mem_map_of_mem _ he, ?_, ?_⟩ <;> simp [heid]
    · refine ⟨_, List.mem_append_right _ (List.mem_singleton_self _), rfl, rfl⟩

/-- C6 witness: with one log entry (id 1), feedback on absent id 7 fails
with `NotFoundError`, and `incorrect` feedback on id 1 marks it
`pending_review` and shows up in the pending list. -/
theorem C6_feedback_linkage_witness :
    ((∀ e ∈ demoLoggedState.qlog, e.id ≠ 7) → ∀ category,
      recordFeedback demoLoggedState 7 category none 9 = .error (.missingLogId 7)) ∧
    ((∃ e ∈ demoLoggedState.qlog, e.id = 1) →
      ∃ s2, recordFeedback demoLoggedState 1 .incorrect none 9 =
          .ok (s2, demoLoggedState.nextFeedbackId) ∧
        (∃ e ∈ s2.qlog, e.id = 1 ∧ e.feedbackStatus = .pending_review) ∧
        (∃ fr ∈ listPendingFeedback s2,
          fr.id = demoLoggedState.nextFeedbackId ∧ fr.logId = 1)) ∧
    (∀ e ∈ demoLoggedState.qlog, e.id ≠ 7) ∧
    (∃ e ∈ demoLoggedState.qlog, e.id = 1) :=
  ⟨(C6_feedback_linkage demoLoggedState 7 none 9).1,
   (C6_feedback_linkage demoLoggedState 1 none 9).2,
   by decide,
   by decide⟩

/-- Taking the most recent `n` keeps a list that already fits. -/
theorem lastN_of_le {α : Type} (n : Nat) (l : List α) (h : l.length ≤ n) :
    lastN n l = l := by
  simp [lastN, Nat.sub_eq_zero_of_le h]

/-- The length of the most recent `n` elements. -/
theorem length_lastN {α : Type} (n : Nat) (l : List α) :
    (lastN n l).length = min n l.length := by
  simp [lastN]
  omega

/-- Truncating to the most recent `n`, appending, and truncating again is
the same as truncating the whole appended list: early truncation only
discards elements a later truncation would discard anyway. -/
theorem lastN_lastN_append {α : Type} (n : Nat) (x m : List α) :
    lastN n (lastN n x ++ m) = lastN n (x ++ m) := by
  by_cases h : x.length ≤ n
  · rw [lastN_of_le n x h]
  · push_neg at h
    simp only [lastN, List.length_append, List.length_drop]
    rw [List.drop_append_eq_append_drop, List.drop_append_eq_append_drop, List.drop_drop]
    simp only [List.length_drop]
    congr 1
    · congr 1
      omega
    · congr 1
      omega

/-- Appending one turn to a session yields that session's previous turns
plus the new one, truncated to the window — whether or not the session
already existed. -/
theorem getSession_appendTurn_self (N : Nat) (mem : Memory) (sid : String)
    (r : Role) (c : String) (t : Nat) :
    getSession (appendTurn N mem sid r c t) sid =
      lastN N (getSession mem sid ++ [⟨r, c, t⟩]) := by
  induction mem with
  | nil => simp [appendTurn, getSession]
  | cons p rest ih =>
    by_cases hp : p.1 = sid
    · simp [appendTurn, getSession, hp]
    · have hstep : appendTurn N (p :: rest) sid r c t = p :: appendTurn N rest sid r c t := by
        by_cases hr : rest.any (fun q => q.1 == sid)
        · simp [appendTurn, hp, hr]
        · simp [appendTurn, hp, hr]
      have hskip : ∀ X : Memory, getSession (p :: X) sid = getSession X sid := by
        intro X
        unfold getSession
        rw [List.find?_cons_of_neg _ (by simp [hp])]
      rw [hstep, hskip, hskip]
      exact ih

/-- Appending a list of turns to a session that fits its window yields the
previous turns plus the new ones, truncated to the window. -/
theorem getSession_appendTurns (N : Nat) (mem : Memory) (sid : String) (ts : List Turn)
    (h : (getSession mem sid).length ≤ N) :
    getSession (appendTurns N mem sid ts) sid = lastN N (getSession mem sid ++ ts) := by
  induction ts generalizing mem with
  | nil =>
    simp only [appendTurns, List.foldl_nil, List.append_nil]
    exact (lastN_of_le N _ h).symm
  | cons t rest ih =>
    have h1 := getSession_appendTurn_self N mem sid t.role t.content t.timestamp
    have hlen : (getSession (appendTurn N mem sid t.role t.content t.timestamp) sid).length ≤ N := by
      rw [h1, length_lastN]
      omega
    have hfold : appendTurns N mem sid (t :: rest) =
        appendTurns N (appendTurn N mem sid t.role t.content t.timestamp) sid rest := rfl
    rw [hfold, ih _ hlen, h1]
    have heta : (⟨t.role, t.content, t.timestamp⟩ : Turn) = t := rfl
    rw [heta, lastN_lastN_append, List.append_assoc, List.singleton_append]

/-- C4: appending `N + 5` turns to a fresh session with retention window
`N` leaves `getContext` of length exactly `N`: the suffix of the most
recent appended turns in their original order (the first 5 are dropped,
nothing is reordered). -/
theorem C4_session_truncation (N : Nat) (mem : Memory) (sid : String) (ts : List Turn)
    (hfresh : ∀ p ∈ mem, p.1 ≠ sid) (hlen : ts.length = N + 5) :
    getContext (appendTurns N mem sid ts) sid =
      (ts.drop 5).map (fun t => (t.role, t.content)) ∧
    (getContext (appendTurns N mem sid ts) sid).length = N := by
  have habs : getSession mem sid = [] := by
    unfold getSession
    cases hfind : mem.find? (fun p => p.1 == sid) with
    | none => simp
    | some p =>
      have hmem := List.mem_of_find?_eq_some hfind
      have hpred := List.find?_some hfind
      simp at hpred
      exact absurd hpred (hfresh p hmem)
  have hmain := getSession_appendTurns N mem sid ts (by simp [habs])
  rw [habs, List.nil_append] at hmain
  have hdrop : lastN N ts = ts.drop 5 := by
    unfold lastN
    congr 1
    omega
  rw [hdrop] at hmain
  constructor
  · unfold getContext
    rw [hmain]
  · unfold getContext
    rw [hmain]
    simp only [List.length_map, List.length_drop, hlen]
    omega

/-- C4 witness: appending 7 concrete turns to a fresh session with window
2 leaves exactly the last 2 turns, in order. -/
theorem C4_session_truncation_witness :
    (∀ p ∈ ([] : Memory), p.1 ≠ "s") ∧
    getContext (appendTurns 2 [] "s" demoTurns) "s" =
      (demoTurns.drop 5).map (fun t => (t.role, t.content)) ∧
    (getContext (appendTurns 2 [] "s" demoTurns) "s").length = 2 :=
  ⟨by simp,
   (C4_session_truncation 2 [] "s" demoTurns (by simp) rfl).1,
   (C4_session_truncation 2 [] "s" demoTurns (by simp) rfl).2⟩

/-- C3: on an empty knowledge base, `answerQuery` returns the deflection
answer with empty citations, never calls the external answerer, and
writes a query-log entry whose confidence level is `low`. -/
theorem C3_empty_kb_deflection (env : Env) (s : SystemState) (question : String)
    (sessionId : Option String) (now latency : Nat)
    (hempty : s.store.entries = []) :
    (answerQuery env s question sessionId now latency).1.citations = [] ∧
    (answerQuery env s question sessionId now latency).1.confidenceLevel = .low ∧
    (answerQuery env s question sessionId now latency).1.calledAnswerer = false ∧
    (answerQuery env s question sessionId now latency).1.answer = deflectionAnswer [] ∧
    ∃ e ∈ (answerQuery env s question sessionId now latency).2.qlog,
      e.id = (answerQuery env s question sessionId now latency).1.logId ∧
      e.confidenceLevel = .low := by
  have hsearch : search env.embed env.dist s.store question 5 = [] := by
    simp [search, hempty]
  refine ⟨?_, ?_, ?_, ?_, ?_⟩
  · simp [answerQuery, hsearch, classify]
  · simp [answerQuery, hsearch, classify]
  · simp [answerQuery, hsearch, classify]
  · simp [answerQuery, hsearch, classify]
  · simp only [answerQuery, hsearch, classify, logQuery, List.map_nil]
    refine ⟨_, List.mem_append_right _ (List.mem_singleton_self _), rfl, rfl⟩

/-- C3 witness: on the empty initial state, the concrete query `q` yields
the canned deflection with no citations, no external call, and a low-
confidence log entry. -/
theorem C3_empty_kb_deflection_witness :
    emptyState.store.entries = [] ∧
    ((answerQuery demoEnv emptyState "q" (some "sid") 5 7).1.citations = [] ∧
     (answerQuery demoEnv emptyState "q" (some "sid") 5 7).1.confidenceLevel = .low ∧
     (answerQuery demoEnv emptyState "q" (some "sid") 5 7).1.calledAnswerer = false ∧
     (answerQuery demoEnv emptyState "q" (some "sid") 5 7).1.answer = deflectionAnswer [] ∧
     ∃ e ∈ (answerQuery demoEnv emptyState "q" (some "sid") 5 7).2.qlog,
       e.id = (answerQuery demoEnv emptyState "q" (some "sid") 5 7).1.logId ∧
       e.confidenceLevel = .low) :=
  ⟨rfl, C3_empty_kb_deflection demoEnv emptyState "q" (some "sid") 5 7 rfl⟩

end HelpdeskBot
